import Mathlib

/-!
# Aquaria BBGE: texture upload and tile batch rendering

A shallow embedding of `BBGE/Texture.cpp` (`Texture::upload`, `Texture::unload`) and
`BBGE/TileRender.cpp` (`TileRender::onRender`).

Modelling conventions
* The GL driver is an output channel: every function returns the list of GL calls
  (and diagnostic log lines) it issues, in program order.
* Pointers are identities. The pixel pointer and the GL handle are natural numbers with
  `0` for `NULL`/"no handle"; `tile.eff`, `eff->grid` and `et->tex` are options, `none`
  for `NULL`; vertex buffers are natural numbers and never null (`Tileset.h`: "never
  NULL"), so `assert(vb)` holds.
* `tile.et` and `tile.rep` are carried by value. The source reads `tile.rep` only under
  the repeat flag; a null `tile.rep` under that flag is undefined behaviour there and has
  no counterpart here.
* A C `float` is an IEEE-754 binary32 value (`F32`): every `+`, `-` and `*` of the source
  rounds to nearest, ties to even, with signed zeros, infinities and NaN; `>=` and `>` are
  false on NaN. Decimal literals such as `0.5f` are written as quotients of integers.
  Each operation rounds on its own (no fused multiply-add, no wider intermediates).
* Dimensions are natural numbers (their C types live in headers that are not part
  of the sources at hand), `Texture::width` and friends are integers (`ow = -1`).
* `malloc`/`free` and the pixel payload of `glTexImage2D` are not represented.
* `bithacks::prevPowerOf2` is declared in a header that is not part of the sources: the
  code takes it from the environment (`GLEnv.prevPowerOf2`), and `prevPowerOf2` below is
  the helper as the spec describes it. `assert(mw && mh)` stops the run when it fails.
-/

namespace Aquaria

/-! ## C `float` arithmetic -/

/-- Number of binary digits of `n`, by halving at most `fuel` times. -/
def bitLenAux : Nat → Nat → Nat
  | 0, _ => 0
  | fuel + 1, n => if n = 0 then 0 else bitLenAux fuel (n / 2) + 1

/-- Number of binary digits of `n` (0 for 0). -/
def bitLen (n : Nat) : Nat := bitLenAux n n

/-- A C `float`: IEEE-754 binary32. A finite value is `(-1)^neg · m · 2^e` with
`m < 2^24` and `-149 ≤ e ≤ 104`, `m ≥ 2^23` unless `e = -149`; zero is `m = 0, e = -149`. -/
inductive F32 where
  | nan
  | inf (neg : Bool)
  | fin (neg : Bool) (m : Nat) (e : Int)
  deriving DecidableEq, Repr

namespace F32

/-- The binary32 value nearest to `(-1)^neg · num / den` (ties to even), infinite on
overflow. -/
def round (neg : Bool) (num den : Nat) : F32 :=
  if den = 0 then .nan
  else if num = 0 then .fin neg 0 (-149)
  else
    let e0 : Int := (bitLen num : Int) - (bitLen den : Int) - 24
    let big : Bool :=
      if e0 ≥ 0 then decide (num ≥ 2 ^ 24 * (den * 2 ^ e0.toNat))
      else decide (num * 2 ^ (-e0).toNat ≥ 2 ^ 24 * den)
    let e1 : Int := if big then e0 + 1 else e0
    let e : Int := max e1 (-149)
    let n : Nat := if e ≥ 0 then num else num * 2 ^ (-e).toNat
    let d : Nat := if e ≥ 0 then den * 2 ^ e.toNat else den
    let q := n / d
    let r := n % d
    let m := if 2 * r > d ∨ (2 * r = d ∧ q % 2 = 1) then q + 1 else q
    let m' := if m = 2 ^ 24 then 2 ^ 23 else m
    let e' := if m = 2 ^ 24 then e + 1 else e
    if e' > 104 then .inf neg else .fin neg m' e'

/-- The signed integer `(-1)^neg · m · 2^(e - emin)`. -/
def scaled (neg : Bool) (m : Nat) (e emin : Int) : Int :=
  if neg then -((m * 2 ^ (e - emin).toNat : Nat) : Int) else ((m * 2 ^ (e - emin).toNat : Nat) : Int)

/-- Sign change. -/
def neg : F32 → F32
  | .nan => .nan
  | .inf s => .inf (!s)
  | .fin s m e => .fin (!s) m e

/-- Addition, rounded to nearest. -/
def add : F32 → F32 → F32
  | .nan, _ => .nan
  | _, .nan => .nan
  | .inf a, .inf b => if a = b then .inf a else .nan
  | .inf a, .fin _ _ _ => .inf a
  | .fin _ _ _, .inf b => .inf b
  | .fin n1 m1 e1, .fin n2 m2 e2 =>
    let emin := min e1 e2
    let s := scaled n1 m1 e1 emin + scaled n2 m2 e2 emin
    if s = 0 then .fin (n1 && n2) 0 (-149)
    else if emin ≥ 0 then round (decide (s < 0)) (s.natAbs * 2 ^ emin.toNat) 1
    else round (decide (s < 0)) s.natAbs (2 ^ (-emin).toNat)

/-- Subtraction, rounded to nearest. -/
def sub (a b : F32) : F32 := add a (neg b)

/-- Multiplication, rounded to nearest. -/
def mul : F32 → F32 → F32
  | .nan, _ => .nan
  | _, .nan => .nan
  | .inf a, .inf b => .inf (a != b)
  | .inf a, .fin n m _ => if m = 0 then .nan else .inf (a != n)
  | .fin n m _, .inf b => if m = 0 then .nan else .inf (n != b)
  | .fin n1 m1 e1, .fin n2 m2 e2 =>
    if e1 + e2 ≥ 0 then round (n1 != n2) (m1 * m2 * 2 ^ (e1 + e2).toNat) 1
    else round (n1 != n2) (m1 * m2) (2 ^ (-(e1 + e2)).toNat)

/-- Division, rounded to nearest. -/
def div : F32 → F32 → F32
  | .nan, _ => .nan
  | _, .nan => .nan
  | .inf _, .inf _ => .nan
  | .inf a, .fin n _ _ => .inf (a != n)
  | .fin n _ _, .inf b => .fin (n != b) 0 (-149)
  | .fin n1 m1 e1, .fin n2 m2 e2 =>
    if m2 = 0 then (if m1 = 0 then .nan else .inf (n1 != n2))
    else if e1 - e2 ≥ 0 then round (n1 != n2) (m1 * 2 ^ (e1 - e2).toNat) m2
    else round (n1 != n2) m1 (m2 * 2 ^ (-(e1 - e2)).toNat)

/-- The order of two values, `none` when one of them is a NaN. -/
def compare? : F32 → F32 → Option Ordering
  | .nan, _ => none
  | _, .nan => none
  | .inf a, .inf b => some (if a = b then .eq else if a then .lt else .gt)
  | .inf a, .fin _ _ _ => some (if a then .lt else .gt)
  | .fin _ _ _, .inf b => some (if b then .gt else .lt)
  | .fin n1 m1 e1, .fin n2 m2 e2 =>
    let x := scaled n1 m1 e1 (min e1 e2)
    let y := scaled n2 m2 e2 (min e1 e2)
    some (if x < y then .lt else if x = y then .eq else .gt)

/-- The C comparison `a <= b`. -/
def ble (a b : F32) : Bool :=
  match compare? a b with
  | some .lt => true
  | some .eq => true
  | _ => false

/-- The C comparison `a < b`. -/
def blt (a b : F32) : Bool :=
  match compare? a b with
  | some .lt => true
  | _ => false

instance : Add F32 := ⟨add⟩
instance : Sub F32 := ⟨sub⟩
instance : Mul F32 := ⟨mul⟩
instance : Div F32 := ⟨div⟩
instance : Neg F32 := ⟨neg⟩
instance (n : Nat) : OfNat F32 n := ⟨round false n 1⟩
instance : LE F32 := ⟨fun a b => ble a b = true⟩
instance : LT F32 := ⟨fun a b => blt a b = true⟩
instance (a b : F32) : Decidable (a ≤ b) := inferInstanceAs (Decidable (ble a b = true))
instance (a b : F32) : Decidable (a < b) := inferInstanceAs (Decidable (blt a b = true))

end F32

/-! ## GL vocabulary -/

/-- The GL enumerants the two translation units pass to the driver. -/
inductive GLenum where
  | GL_TEXTURE_2D
  | GL_UNPACK_ALIGNMENT
  | GL_TEXTURE_WRAP_S
  | GL_TEXTURE_WRAP_T
  | GL_REPEAT
  | GL_GENERATE_MIPMAP
  | GL_TRUE
  | GL_GENERATE_MIPMAP_HINT
  | GL_NICEST
  | GL_TEXTURE_MAX_LEVEL
  | GL_TEXTURE_MIN_FILTER
  | GL_TEXTURE_MAG_FILTER
  | GL_LINEAR
  | GL_LINEAR_MIPMAP_LINEAR
  | GL_LUMINANCE
  | GL_R
  | GL_LUMINANCE_ALPHA
  | GL_RGB
  | GL_RGBA
  | GL_UNSIGNED_BYTE
  | GL_TRIANGLE_FAN
  | GL_POINTS
  | GL_LINE_STRIP
  | GL_ARRAY_BUFFER
  deriving DecidableEq, Repr

/-- The two diagnostics `Texture::upload` writes with `debugLog`. -/
inductive LogMsg where
  | hardwareMipmapFailed
  | softwareMipmapFailed
  deriving DecidableEq, Repr

/-- The `Vector` of `Vector.h`: three float components, component-wise arithmetic. -/
structure Vector where
  x : F32
  y : F32
  z : F32
  deriving DecidableEq

/-- The part of `RenderState` that `TileRender::onRender` reads and copies. -/
structure RenderState where
  color : Vector
  alpha : F32
  deriving DecidableEq

/-- One call made on the GL driver (or on a collaborator that draws). -/
inductive GLCmd where
  | glEnable (cap : GLenum)
  | glPixelStorei (pname : GLenum) (value : Nat)
  | glGenTextures (id : Nat)
  | glBindTexture (target : GLenum) (id : Nat)
  | glTexParameteri (pname : GLenum) (value : GLenum)
  | glTexParameterLevel (pname : GLenum) (level : Nat)
  | glGetTexParameteriv (pname : GLenum)
  | glTexImage2D (level : Nat) (internalformat : GLenum) (w h : Nat) (format type : GLenum)
  | glHint (target : GLenum) (mode : GLenum)
  | glGenerateMipmapEXT (target : GLenum)
  | glDeleteTextures (id : Nat)
  | debugLog (msg : LogMsg)
  | texApply (id : Nat) (rep : Bool)
  | setBlend (blend : Nat)
  | glColor4f (r g b a : F32)
  | glPushMatrix
  | glPopMatrix
  | glTranslatef (x y z : F32)
  | glRotatef (angle x y z : F32)
  | glScalef (x y z : F32)
  | vbApply (buf : Nat)
  | vbDrawArrays (buf : Nat) (mode : GLenum) (count : Nat)
  | gridRender (grid : Nat) (rx : RenderState) (upperLeft lowerRight : Vector)
  | gridRenderDebugPoints (grid : Nat) (rs : RenderState)
  | glPointSize (size : F32)
  | glLineWidth (width : F32)
  | glBegin (mode : GLenum)
  | glVertex2f (x y : F32)
  | glEnd
  | glBindBufferARB (target : GLenum) (buf : Nat)
  deriving DecidableEq

/-! ## Texture -/

/-- The fields of `class Texture` that `Texture.cpp` assigns. -/
structure Texture where
  gltexid : Nat
  width : Int
  height : Int
  ow : Int
  oh : Int
  _mipmap : Bool
  success : Bool
  deriving DecidableEq

/-- The `ImageData` handed to `upload`; `pixels = 0` is the null pointer. -/
structure ImageData where
  pixels : Nat
  w : Nat
  h : Nat
  channels : Nat
  deriving DecidableEq

/-- The struct `GlTexFormat`. -/
structure GlTexFormat where
  internalformat : GLenum
  format : GLenum
  type : GLenum
  alphachan : Int
  deriving DecidableEq

/-- The constant `STBIR_ALPHA_CHANNEL_NONE` of `stb_image_resize.h`. -/
def STBIR_ALPHA_CHANNEL_NONE : Int := -1

/-- The table `formatLUT`, indexed by `channels - 1`. -/
def formatLUT : List GlTexFormat :=
  [ ⟨.GL_LUMINANCE, .GL_R, .GL_UNSIGNED_BYTE, STBIR_ALPHA_CHANNEL_NONE⟩,
    ⟨.GL_LUMINANCE_ALPHA, .GL_LUMINANCE_ALPHA, .GL_UNSIGNED_BYTE, 1⟩,
    ⟨.GL_RGB, .GL_RGB, .GL_UNSIGNED_BYTE, STBIR_ALPHA_CHANNEL_NONE⟩,
    ⟨.GL_RGBA, .GL_RGBA, .GL_UNSIGNED_BYTE, 3⟩ ]

/-- What `Texture::upload` obtains from outside itself: which GL entry points exist,
what the driver answers, what `bithacks::prevPowerOf2` computes (its header is not
among the sources) and what `stbir_resize_uint8_generic` returns for each mip level. -/
structure GLEnv where
  hasGenerateMipmapEXT : Bool
  g_has_GL_GENERATE_MIPMAP : Bool
  generateMipmapAnswer : Int
  newTextureId : Nat
  prevPowerOf2 : Nat → Nat
  resizeResult : Nat → Int

/-- The constructor `Texture::Texture()`. -/
def Texture.new : Texture :=
  { gltexid := 0, width := 0, height := 0, ow := -1, oh := -1, _mipmap := false, success := false }

/-- The method `Texture::unload`: the new state and the GL calls issued. -/
def Texture.unload (t : Texture) : Texture × List GLCmd :=
  if t.gltexid ≠ 0 then
    ({ t with ow := t.width, oh := t.height, gltexid := 0 }, [.glDeleteTextures t.gltexid])
  else
    (t, [])

/-- How a run of the software mip loop ends. -/
inductive Termination where
  | returned
  | assertFailed
  | outOfFuel
  deriving DecidableEq, Repr

/-- What the software mip loop leaves behind: the locals `level` and `ismip`, the
calls issued, and how the run ended. -/
structure MipRun where
  level : Nat
  ismip : Int
  cmds : List GLCmd
  status : Termination
  deriving DecidableEq

/-- The `while(mw > 1 || mh > 1)` loop of `Texture::upload` (lines 185-210), entered
with `ismip = 1`. `fuel` bounds the number of iterations the model follows. -/
def mipLoop (env : GLEnv) (f : GlTexFormat) : Nat → Nat → Nat → Nat → MipRun
  | 0, mw, mh, level =>
    if mw > 1 ∨ mh > 1 then ⟨level, 1, [], .outOfFuel⟩ else ⟨level, 1, [], .returned⟩
  | fuel + 1, mw, mh, level =>
    if mw > 1 ∨ mh > 1 then
      let mw' := env.prevPowerOf2 mw
      let mh' := env.prevPowerOf2 mh
      if mw' = 0 ∨ mh' = 0 then
        ⟨level, 1, [], .assertFailed⟩
      else
        let level' := level + 1
        if env.resizeResult level' = 0 then
          ⟨level', 0, [.debugLog .softwareMipmapFailed], .returned⟩
        else
          let r := mipLoop env f fuel mw' mh' level'
          { r with cmds := .glTexImage2D level' f.internalformat mw' mh' f.format f.type :: r.cmds }
    else
      ⟨level, 1, [], .returned⟩

/-- What a call of `Texture::upload` that returns leaves behind. -/
structure UploadResult where
  ret : Bool
  tex : Texture
  cmds : List GLCmd
  deriving DecidableEq

/-- The method `Texture::upload`. The result is `none` when the call does not return
within `fuel` iterations of the software mip loop or stops on `assert(mw && mh)`. -/
def Texture.upload (env : GLEnv) (fuel : Nat) (t : Texture) (img : ImageData) (mipmap : Bool) :
    Option UploadResult :=
  if img.pixels = 0 ∨ img.channels = 0 ∨ img.channels > 4 ∨ img.w = 0 ∨ img.h = 0 then
    some ⟨false, t, []⟩
  else
    let gen : List GLCmd := if t.gltexid = 0 then [.glGenTextures env.newTextureId] else []
    let gltexid := if t.gltexid = 0 then env.newTextureId else t.gltexid
    let c0 : List GLCmd :=
      [.glEnable .GL_TEXTURE_2D, .glPixelStorei .GL_UNPACK_ALIGNMENT 1] ++ gen ++
      [.glBindTexture .GL_TEXTURE_2D gltexid,
       .glTexParameteri .GL_TEXTURE_WRAP_S .GL_REPEAT,
       .glTexParameteri .GL_TEXTURE_WRAP_T .GL_REPEAT]
    let f := formatLUT.getD (img.channels - 1) ⟨.GL_RGBA, .GL_RGBA, .GL_UNSIGNED_BYTE, 3⟩
    let auto : Bool := mipmap && !env.hasGenerateMipmapEXT && env.g_has_GL_GENERATE_MIPMAP
    let c1 : List GLCmd :=
      if auto then
        [.glTexParameteri .GL_GENERATE_MIPMAP .GL_TRUE, .glGetTexParameteriv .GL_GENERATE_MIPMAP]
      else []
    let ismip0 : Int := if auto then env.generateMipmapAnswer else 0
    let c2 : List GLCmd := [.glTexImage2D 0 f.internalformat img.w img.h f.format f.type]
    let finish (ismip : Int) (c3 : List GLCmd) : Option UploadResult :=
      let minfilter := if ismip ≠ 0 then GLenum.GL_LINEAR_MIPMAP_LINEAR else GLenum.GL_LINEAR
      some ⟨true, { t with gltexid := gltexid, width := img.w, height := img.h },
        c0 ++ c1 ++ c2 ++ c3 ++
          [.glTexParameteri .GL_TEXTURE_MIN_FILTER minfilter,
           .glTexParameteri .GL_TEXTURE_MAG_FILTER .GL_LINEAR]⟩
    if mipmap ∧ ismip0 = 0 then
      if env.hasGenerateMipmapEXT then
        finish 1 [.glHint .GL_GENERATE_MIPMAP_HINT .GL_NICEST, .glGenerateMipmapEXT .GL_TEXTURE_2D]
      else
        let r := mipLoop env f fuel img.w img.h 0
        match r.status with
        | .returned =>
          finish r.ismip
            ([.debugLog .hardwareMipmapFailed] ++ r.cmds ++
              [.glTexParameterLevel .GL_TEXTURE_MAX_LEVEL r.level])
        | _ => none
    else
      finish ismip0 []

/-- Largest power of two not above `x`, found by doubling `p` at most `fuel` times. -/
def floorPow2From : Nat → Nat → Nat → Nat
  | 0, p, _ => p
  | fuel + 1, p, x => if 2 * p ≤ x then floorPow2From fuel (2 * p) x else p

/-- Modelled from the spec: `bithacks::prevPowerOf2`, whose header `bithacks.h` is not
among the sources. The spec describes it as "the largest power-of-two strictly less than
or equal to the current dimensions ... (not simple halving — a power-of-two floor)". -/
def prevPowerOf2 (x : Nat) : Nat :=
  if x = 0 then 0 else floorPow2From x 1 x

/-- A helper under which the mip loop makes progress: the largest power of two strictly
below `x` for `x ≥ 2`, and `x` itself for `x ≤ 1`. -/
def prevPowerOf2Below (x : Nat) : Nat :=
  if x ≤ 1 then x else prevPowerOf2 (x - 1)

/-- The levels attached with `glTexImage2D`, in call order: `(level, width, height)`. -/
def uploadedLevels : List GLCmd → List (Nat × Nat × Nat)
  | [] => []
  | .glTexImage2D level _ w h _ _ :: cs => (level, w, h) :: uploadedLevels cs
  | _ :: cs => uploadedLevels cs

/-- The values written to `GL_TEXTURE_MAX_LEVEL`, in call order. -/
def maxLevelsSet : List GLCmd → List Nat
  | [] => []
  | .glTexParameterLevel .GL_TEXTURE_MAX_LEVEL level :: cs => level :: maxLevelsSet cs
  | _ :: cs => maxLevelsSet cs

/-- The values written to `GL_TEXTURE_MIN_FILTER`, in call order. -/
def minFiltersSet : List GLCmd → List GLenum
  | [] => []
  | .glTexParameteri .GL_TEXTURE_MIN_FILTER v :: cs => v :: minFiltersSet cs
  | _ :: cs => minFiltersSet cs

/-! ## TileRender -/

/-- Component-wise sum. -/
def Vector.add (a b : Vector) : Vector := ⟨a.x + b.x, a.y + b.y, a.z + b.z⟩

/-- Component-wise difference. -/
def Vector.sub (a b : Vector) : Vector := ⟨a.x - b.x, a.y - b.y, a.z - b.z⟩

/-- Component-wise product, `Vector * Vector`. -/
def Vector.mul (a b : Vector) : Vector := ⟨a.x * b.x, a.y * b.y, a.z * b.z⟩

/-- Product with a scalar, `Vector * float` and `float * Vector`. -/
def Vector.scale (a : Vector) (f : F32) : Vector := ⟨a.x * f, a.y * f, a.z * f⟩

/-- The method `Vector::getSquaredLength2D`. -/
def Vector.getSquaredLength2D (a : Vector) : F32 := a.x * a.x + a.y * a.y

/-- The bits of `tile.flags` that `onRender` tests. The `TILEFLAG_*` constants are declared
in a header that is not among the sources; they are distinct single bits, so the bitset is
a record of booleans. -/
structure TileFlags where
  hidden : Bool
  editorHidden : Bool
  fh : Bool
  fv : Bool
  rep : Bool
  selected : Bool
  deriving DecidableEq

/-- The class `ElementTemplate` of `Tileset.h`; `tex = none` is the empty `CountedPtr`. -/
structure ElementTemplate where
  tex : Option Texture
  w : F32
  h : F32
  vertexbuf : Nat
  ownsVertexbuf : Bool
  tu1 : F32
  tu2 : F32
  tv1 : F32
  tv2 : F32
  idx : Nat
  deriving DecidableEq

/-- The repeat variant `tile.rep` as far as `onRender` reads it. -/
structure TileRepeatData where
  vertexbuf : Nat
  tu1 : F32
  tv1 : F32
  tu2 : F32
  tv2 : F32
  deriving DecidableEq

/-- The shared effect descriptor behind `tile.eff`; `grid = none` is a null `RenderGrid*`. -/
structure TileEffectData where
  grid : Option Nat
  alpha : Vector
  blend : Nat
  deriving DecidableEq

/-- The enumerator `BLEND_DEFAULT`. -/
def BLEND_DEFAULT : Nat := 0

/-- One `TileData` as far as `onRender` reads it. `eff` is the address held in `tile.eff`
(`none` for `NULL`); `et` and `rep` are the pointees of `tile.et` and `tile.rep`. -/
structure TileData where
  x : F32
  y : F32
  scalex : F32
  scaley : F32
  rotation : F32
  flags : TileFlags
  tag : Int
  et : ElementTemplate
  rep : TileRepeatData
  eff : Option Nat
  deriving DecidableEq

/-- Everything `onRender` reads besides its argument and the tiles: the layer's parallax
settings, the globals of `core`, the two overlay switches, and the heap of effect
descriptors that `tile.eff` points into. -/
structure RenderEnv where
  followCameraMult : Vector
  followCamera : F32
  screenCenter : Vector
  cullCenter : Vector
  invGlobalScaleSqr : F32
  cullRadiusSqr : F32
  renderBorders : Bool
  renderCollisionShape : Bool
  effects : Nat → TileEffectData

/-- The locals of `onRender` that live across loop iterations. `prevEff = none` is the
initial `((TileEffectData*)NULL)+1`, "different from anything else". -/
structure LoopState where
  lastTexRepeat : Bool
  lastTexId : Nat
  prevEff : Option (Option Nat)
  grid : Option Nat
  lastVertexBuf : Option Nat
  deriving DecidableEq

/-- The locals as initialised before the loop (lines 62-68). -/
def LoopState.init : LoopState :=
  { lastTexRepeat := false, lastTexId := 0, prevEff := none, grid := none, lastVertexBuf := none }

/-- The table `s_tagColors`. -/
def s_tagColors : List Vector :=
  [ ⟨1/2, 1/2, 1/2⟩,
    ⟨1, 0, 0⟩,
    ⟨1, 415686/1000000, 0⟩,
    ⟨1, 847059/1000000, 0⟩,
    ⟨298039/1000000, 1, 0⟩,
    ⟨0, 1, 1⟩,
    ⟨0, 580392/1000000, 1⟩,
    ⟨0, 149020/1000000, 1⟩,
    ⟨282353/1000000, 0, 1⟩,
    ⟨698039/1000000, 0, 1⟩,
    ⟨1, 0, 1⟩ ]

/-- The function `getTagColor`: `unsigned(tag)` clamped to the last entry. -/
def getTagColor (tag : Int) : Vector :=
  s_tagColors.getD (min (tag % 4294967296).toNat (s_tagColors.length - 1)) ⟨1, 0, 1⟩

/-- The render position of a tile (lines 76-81). -/
def tilePos (env : RenderEnv) (tile : TileData) : Vector :=
  let pos : Vector := ⟨tile.x, tile.y, 0⟩
  if env.followCamera > 0 then
    let M := env.followCameraMult
    let F := env.followCamera
    let M1 := Vector.sub ⟨1, 1, 0⟩ M
    let T := env.screenCenter.scale (1 - F)
    let tmp := T.add (pos.scale F)
    (pos.mul M1).add (tmp.mul M)
  else
    pos

/-- The local `sw`. -/
def tileSw (tile : TileData) : F32 := tile.et.w * tile.scalex

/-- The local `sh`. -/
def tileSh (tile : TileData) : F32 := tile.et.h * tile.scaley

/-- The squared planar distance of the render position from `core->cullCenter`. -/
def cullDistSqr (env : RenderEnv) (tile : TileData) : F32 :=
  ((tilePos env tile).sub env.cullCenter).getSquaredLength2D

/-- The local `cullRadiusSqr` (line 89). -/
def tileCullRadiusSqr (env : RenderEnv) (tile : TileData) : F32 :=
  ((tileSw tile * tileSw tile + tileSh tile * tileSh tile) * env.invGlobalScaleSqr)
    + env.cullRadiusSqr

/-- The cull test (line 90): true when the tile is skipped. -/
def tileCulled (env : RenderEnv) (tile : TileData) : Bool :=
  decide (cullDistSqr env tile ≥ tileCullRadiusSqr env tile)

/-- Texture bind elision (lines 94-109). -/
def bindTileTexture (st : LoopState) (tile : TileData) : LoopState × List GLCmd :=
  match tile.et.tex with
  | some tex =>
    if tex.gltexid ≠ st.lastTexId ∨ tile.flags.rep ≠ st.lastTexRepeat then
      ({ st with lastTexId := tex.gltexid, lastTexRepeat := tile.flags.rep },
        [.texApply tex.gltexid tile.flags.rep])
    else
      (st, [])
  | none => ({ st with lastTexId := 0 }, [.glBindTexture .GL_TEXTURE_2D 0])

/-- Effect state elision (lines 111-129): the new locals, the local `alpha`, the calls. -/
def applyTileEffect (env : RenderEnv) (rs : RenderState) (st : LoopState) (tile : TileData) :
    LoopState × F32 × List GLCmd :=
  if some tile.eff ≠ st.prevEff then
    match tile.eff with
    | some e =>
      let d := env.effects e
      let alpha := rs.alpha * d.alpha.x
      ({ st with prevEff := some (some e), grid := d.grid }, alpha,
        [.setBlend d.blend, .glColor4f rs.color.x rs.color.y rs.color.z alpha])
    | none =>
      ({ st with prevEff := some none, grid := none }, rs.alpha,
        [.setBlend BLEND_DEFAULT, .glColor4f rs.color.x rs.color.y rs.color.z rs.alpha])
  else
    (st, rs.alpha, [])

/-- Transform composition (lines 131-166) under the current local `grid`. -/
def tileTransform (grid : Option Nat) (tile : TileData) (pos : Vector) (sw sh : F32) :
    List GLCmd :=
  let fh := tile.flags.fh
  let fv := if grid.isSome then false else tile.flags.fv
  let effrot := if fh && fv then tile.rotation + 180 else tile.rotation
  let flip : List GLCmd :=
    if fh && !fv then [.glRotatef 180 0 1 0]
    else if fv && !fh then [.glRotatef 180 1 0 0]
    else []
  [.glPushMatrix, .glTranslatef pos.x pos.y pos.z, .glRotatef effrot 0 0 1] ++ flip ++
    [.glScalef sw sh 1]

/-- Geometry dispatch (lines 169-199). -/
def drawTile (rs : RenderState) (st : LoopState) (alpha : F32) (tile : TileData) :
    LoopState × List GLCmd :=
  match st.grid with
  | none =>
    let vb := if !tile.flags.rep then tile.et.vertexbuf else tile.rep.vertexbuf
    if some vb ≠ st.lastVertexBuf then
      ({ st with lastVertexBuf := some vb }, [.vbApply vb, .vbDrawArrays vb .GL_TRIANGLE_FAN 4])
    else
      (st, [.vbDrawArrays vb .GL_TRIANGLE_FAN 4])
  | some g =>
    let rx : RenderState := { rs with alpha := alpha }
    if tile.flags.rep then
      (st, [.gridRender g rx ⟨tile.rep.tu1, tile.rep.tv1, 0⟩ ⟨tile.rep.tu2, tile.rep.tv2, 0⟩])
    else
      (st, [.gridRender g rx ⟨tile.et.tu1, tile.et.tv1, 0⟩ ⟨tile.et.tu2, tile.et.tv2, 0⟩])

/-- The debug overlay (lines 201-233). -/
def drawTileExtras (env : RenderEnv) (rs : RenderState) (st : LoopState) (tile : TileData) :
    LoopState × List GLCmd :=
  if env.renderBorders || env.renderCollisionShape then
    let points : List GLCmd :=
      match st.grid with
      | some g => if env.renderCollisionShape then [.gridRenderDebugPoints g rs] else []
      | none => []
    let c : F32 := if tile.flags.selected then 1 else 1/2
    let color := (Vector.mk c c c).mul (getTagColor tile.tag)
    let borders : List GLCmd :=
      if env.renderBorders then
        [.glColor4f color.x color.y color.z 1, .glPointSize 16, .glBegin .GL_POINTS,
         .glVertex2f 0 0, .glEnd, .glLineWidth 2, .glBegin .GL_LINE_STRIP,
         .glVertex2f (1/2) (1/2), .glVertex2f (1/2) (-1/2), .glVertex2f (-1/2) (-1/2),
         .glVertex2f (-1/2) (1/2), .glVertex2f (1/2) (1/2), .glEnd]
      else []
    ({ st with lastTexId := 0, prevEff := none },
      [.glBindTexture .GL_TEXTURE_2D 0] ++ points ++ borders)
  else
    (st, [])

/-- One iteration of the loop of `onRender` (lines 72-235). -/
def tileStep (env : RenderEnv) (rs : RenderState) (st : LoopState) (tile : TileData) :
    LoopState × List GLCmd :=
  if tile.flags.hidden || tile.flags.editorHidden then
    (st, [])
  else if tileCulled env tile then
    (st, [])
  else
    let b := bindTileTexture st tile
    let e := applyTileEffect env rs b.1 tile
    let tr := tileTransform e.1.grid tile (tilePos env tile) (tileSw tile) (tileSh tile)
    let d := drawTile rs e.1 e.2.1 tile
    let x := drawTileExtras env rs d.1 tile
    (x.1, b.2 ++ e.2.2 ++ tr ++ d.2 ++ x.2 ++ [.glPopMatrix])

/-- The loop of `onRender` from a given state over the remaining tiles. -/
def renderTiles (env : RenderEnv) (rs : RenderState) : LoopState → List TileData →
    LoopState × List GLCmd
  | st, [] => (st, [])
  | st, t :: ts =>
    ((renderTiles env rs (tileStep env rs st t).1 ts).1,
      (tileStep env rs st t).2 ++ (renderTiles env rs (tileStep env rs st t).1 ts).2)

/-- What `onRender` leaves behind: the calls issued and the values stored in
`RenderObject::lastTextureApplied` and `RenderObject::lastTextureRepeat` (if stored). -/
structure RenderResult where
  cmds : List GLCmd
  published : Option (Nat × Bool)
  deriving DecidableEq

/-- The method `TileRender::onRender`. -/
def TileRender.onRender (env : RenderEnv) (rs : RenderState) (tiles : List TileData) :
    RenderResult :=
  if tiles.isEmpty then
    ⟨[], none⟩
  else
    let r := renderTiles env rs LoopState.init tiles
    ⟨r.2 ++ [.glBindBufferARB .GL_ARRAY_BUFFER 0], some (r.1.lastTexId, r.1.lastTexRepeat)⟩

/-! ## Vocabulary of the statements -/

/-- What the mip loop needs from `bithacks::prevPowerOf2` to leave through its guard:
`assert(mw && mh)` holds, no dimension grows, and a dimension above 1 shrinks. -/
def Shrinks (p : Nat → Nat) : Prop :=
  ∀ x, 1 ≤ x → 1 ≤ p x ∧ p x ≤ x ∧ (2 ≤ x → p x < x)

/-- Consecutive uploaded levels `a`, `b`: `b` is the next level, its dimensions are
`p` of those of `a`, neither dimension grows and at least one shrinks. -/
def MipStep (p : Nat → Nat) (a b : Nat × Nat × Nat) : Prop :=
  b.1 = a.1 + 1 ∧ b.2.1 = p a.2.1 ∧ b.2.2 = p a.2.2 ∧
    b.2.1 ≤ a.2.1 ∧ b.2.2 ≤ a.2.2 ∧ (b.2.1 < a.2.1 ∨ b.2.2 < a.2.2)

/-- A driver without `glGenerateMipmapEXT` and without `GL_GENERATE_MIPMAP`, so that
`upload` takes the software fallback; `p` stands for `prevPowerOf2`, `res` for the
results of the resampler. -/
def softwareEnv (p : Nat → Nat) (res : Nat → Int) : GLEnv :=
  { hasGenerateMipmapEXT := false, g_has_GL_GENERATE_MIPMAP := false,
    generateMipmapAnswer := 0, newTextureId := 1, prevPowerOf2 := p, resizeResult := res }

/-- A texture that holds GL handle 7 with a 16 by 8 image. -/
def loadedTexture : Texture :=
  { gltexid := 7, width := 16, height := 8, ow := -1, oh := -1, _mipmap := false, success := true }

/-- A texture bind issued by `onRender`: `tex->apply(...)` or `glBindTexture(...)`. -/
def isTextureBind : GLCmd → Bool
  | .texApply _ _ => true
  | .glBindTexture _ _ => true
  | _ => false

/-- A blend state update, `rs.gpu.setBlend(...)`. -/
def isSetBlend : GLCmd → Bool
  | .setBlend _ => true
  | _ => false

/-- A colour/alpha state update, `glColor4f(...)`. -/
def isColorUpdate : GLCmd → Bool
  | .glColor4f _ _ _ _ => true
  | _ => false

/-- A call that composes the model-view transform. -/
def isTransform : GLCmd → Bool
  | .glTranslatef _ _ _ => true
  | .glRotatef _ _ _ _ => true
  | .glScalef _ _ _ => true
  | _ => false

/-- The transform composed by a command sequence. -/
def transformCmds (cmds : List GLCmd) : List GLCmd := cmds.filter isTransform

/-- The grid behind an effect pointer: `eff ? eff->grid : NULL`. -/
def effGrid (env : RenderEnv) : Option Nat → Option Nat
  | some e => (env.effects e).grid
  | none => none

/-- The tile with its two flip flags set to `fh` and `fv`. -/
def withFlips (t : TileData) (fh fv : Bool) : TileData :=
  { t with flags := { t.flags with fh := fh, fv := fv } }

/-- The tile with its vertical-flip flag set to `fv`. -/
def withFV (t : TileData) (fv : Bool) : TileData :=
  { t with flags := { t.flags with fv := fv } }

/-- The calls of `grid->render`, in order: grid, `rx.alpha`, and the two corners. -/
def gridRenders : List GLCmd → List (Nat × F32 × Vector × Vector)
  | [] => []
  | .gridRender g rx ul lr :: cs => (g, rx.alpha, ul, lr) :: gridRenders cs
  | _ :: cs => gridRenders cs

/-- The relation between the locals `prevEff` and `grid` that the loop maintains: once
an effect has been seen, `grid` is the grid of that effect. -/
def LoopInv (env : RenderEnv) (st : LoopState) : Prop :=
  ∀ e, st.prevEff = some e → st.grid = effGrid env e

/-- An ambient render state: white, fully opaque. -/
def sampleRs : RenderState := ⟨⟨1, 1, 1⟩, 1⟩

/-- A layer that does not follow the camera, overlay off; effect 1 carries grid 5 and an
alpha multiplier of one half, every other effect has no grid. -/
def sampleEnv : RenderEnv :=
  { followCameraMult := ⟨1, 1, 1⟩, followCamera := 0, screenCenter := ⟨0, 0, 0⟩,
    cullCenter := ⟨0, 0, 0⟩, invGlobalScaleSqr := 1, cullRadiusSqr := 100,
    renderBorders := false, renderCollisionShape := false,
    effects := fun e => if e = 1 then ⟨some 5, ⟨1/2, 1, 1⟩, 0⟩ else ⟨none, ⟨1, 1, 1⟩, 0⟩ }

/-- A visible 2 by 2 tile at (1, 2) with a loaded texture and no effect. -/
def sampleTile : TileData :=
  { x := 1, y := 2, scalex := 1, scaley := 1, rotation := 30,
    flags := ⟨false, false, false, false, false, false⟩, tag := 0,
    et := ⟨some loadedTexture, 2, 2, 11, false, 0, 1, 0, 1, 0⟩,
    rep := ⟨12, 0, 0, 3, 3⟩, eff := none }

/-- The sample tile with effect 1, which carries a deforming grid. -/
def gridTile : TileData := { sampleTile with eff := some 1 }

/-- The sample tile without a texture. -/
def untexturedTile : TileData := { sampleTile with et := { sampleTile.et with tex := none } }

/-- The sample tile with a texture object that holds no GL handle. -/
def unloadedTile : TileData :=
  { sampleTile with et := { sampleTile.et with tex := some Texture.new } }

/-- The sample tile moved far away from the cull centre. -/
def farTile : TileData := { sampleTile with x := 100 }

/-- Membership of a tile in a run: visible, inside the cull radius, with texture `tex`,
repeat flag `r` and effect pointer `e`. -/
def InRun (env : RenderEnv) (tex : Texture) (r : Bool) (e : Option Nat) (t : TileData) : Prop :=
  t.flags.hidden = false ∧ t.flags.editorHidden = false ∧ tileCulled env t = false ∧
    t.et.tex = some tex ∧ t.flags.rep = r ∧ t.eff = e

/-- How many texture binds, blend updates and colour updates a command sequence holds. -/
def stateChanges (cmds : List GLCmd) : Nat × Nat × Nat :=
  (cmds.countP isTextureBind, cmds.countP isSetBlend, cmds.countP isColorUpdate)

/-! ## Texture: the helper, the mip loop, `upload` and `unload` -/

set_option maxRecDepth 100000

theorem floorPow2From_bounds (fuel p x : Nat) (hp : 1 ≤ p) (hx : p ≤ x) :
    1 ≤ floorPow2From fuel p x ∧ floorPow2From fuel p x ≤ x := by
  induction fuel generalizing p with
  | zero => exact ⟨hp, hx⟩
  | succ n ih =>
    unfold floorPow2From
    split
    · exact ih (2 * p) (by omega) (by assumption)
    · exact ⟨hp, hx⟩

theorem prevPowerOf2_bounds (x : Nat) (hx : 1 ≤ x) :
    1 ≤ prevPowerOf2 x ∧ prevPowerOf2 x ≤ x := by
  unfold prevPowerOf2
  rw [if_neg (by omega)]
  exact floorPow2From_bounds x 1 x le_rfl hx

theorem floorPow2From_pow (fuel j x : Nat) (hle : 2 ^ j ≤ x) (hlt : x < 2 ^ j * 2 ^ fuel) :
    ∃ k, floorPow2From fuel (2 ^ j) x = 2 ^ k ∧ 2 ^ k ≤ x ∧ x < 2 ^ (k + 1) := by
  induction fuel generalizing j with
  | zero =>
    simp only [pow_zero, mul_one] at hlt
    omega
  | succ n ih =>
    unfold floorPow2From
    by_cases h : 2 * 2 ^ j ≤ x
    · rw [if_pos h]
      have h2 : 2 * 2 ^ j = 2 ^ (j + 1) := by ring
      rw [h2]
      apply ih (j + 1)
      · omega
      · calc x < 2 ^ j * 2 ^ (n + 1) := hlt
          _ = 2 ^ (j + 1) * 2 ^ n := by ring
    · rw [if_neg h]
      refine ⟨j, rfl, hle, ?_⟩
      rw [pow_succ]
      omega

/-- The model of `prevPowerOf2` is what the spec's words say: for `x ≥ 1` it is the power
of two `2 ^ k` with `2 ^ k ≤ x < 2 ^ (k + 1)`. -/
theorem prevPowerOf2_is_floor (x : Nat) (hx : 1 ≤ x) :
    ∃ k, prevPowerOf2 x = 2 ^ k ∧ 2 ^ k ≤ x ∧ x < 2 ^ (k + 1) := by
  unfold prevPowerOf2
  rw [if_neg (by omega)]
  have h := floorPow2From_pow x 0 x (by simpa using hx) (by simpa using Nat.lt_two_pow x)
  simpa using h

/-- For `x ≥ 2`, `prevPowerOf2Below x` is the largest power of two strictly below `x`. -/
theorem prevPowerOf2Below_is_strict (x : Nat) (hx : 2 ≤ x) :
    ∃ k, prevPowerOf2Below x = 2 ^ k ∧ 2 ^ k < x ∧ x ≤ 2 ^ (k + 1) := by
  unfold prevPowerOf2Below
  rw [if_neg (by omega)]
  obtain ⟨k, h1, h2, h3⟩ := prevPowerOf2_is_floor (x - 1) (by omega)
  exact ⟨k, h1, by omega, by omega⟩

theorem shrinks_prevPowerOf2Below : Shrinks prevPowerOf2Below := by
  intro x hx
  unfold prevPowerOf2Below
  by_cases h : x ≤ 1
  · rw [if_pos h]; omega
  · rw [if_neg h]
    have := prevPowerOf2_bounds (x - 1) (by omega)
    omega

theorem mipLoop_returns (env : GLEnv) (f : GlTexFormat) (hp : Shrinks env.prevPowerOf2)
    (fuel mw mh level : Nat) (hw : 1 ≤ mw) (hh : 1 ≤ mh) (hfuel : mw + mh ≤ fuel + 2) :
    (mipLoop env f fuel mw mh level).status = .returned := by
  induction fuel generalizing mw mh level with
  | zero =>
    unfold mipLoop
    rw [if_neg (by omega)]
  | succ n ih =>
    unfold mipLoop
    by_cases hc : mw > 1 ∨ mh > 1
    · rw [if_pos hc]
      obtain ⟨a1, a2, a3⟩ := hp mw hw
      obtain ⟨b1, b2, b3⟩ := hp mh hh
      simp only []
      rw [if_neg (by omega)]
      by_cases hr : env.resizeResult (level + 1) = 0
      · rw [if_pos hr]
      · rw [if_neg hr]
        simp only []
        apply ih _ _ _ a1 b1
        rcases hc with hc | hc
        · have := a3 hc; omega
        · have := b3 hc; omega
    · rw [if_neg hc]

/-- Claim C1. For every texture, driver and image whose pixel pointer is null, whose channel
count is 0 or above 4, or whose width or height is 0, `Texture::upload` returns false,
issues no GL call and leaves the texture (hence `gltexid`, `width`, `height`) as it was. -/
theorem C1_upload_rejects_invalid_image (env : GLEnv) (fuel : Nat) (t : Texture)
    (img : ImageData) (mipmap : Bool)
    (h : img.pixels = 0 ∨ img.channels = 0 ∨ img.channels > 4 ∨ img.w = 0 ∨ img.h = 0) :
    Texture.upload env fuel t img mipmap = some ⟨false, t, []⟩ := by
  unfold Texture.upload
  rw [if_pos h]

/-- Claim C1 at a loaded texture and a 4 by 4 RGBA image whose pixel pointer is null. -/
theorem C1_upload_rejects_invalid_image_witness :
    (ImageData.mk 0 4 4 4).pixels = 0 ∧
    Texture.upload (softwareEnv prevPowerOf2Below (fun _ => 1)) 8 loadedTexture ⟨0, 4, 4, 4⟩ true
      = some ⟨false, loadedTexture, []⟩ :=
  ⟨rfl, C1_upload_rejects_invalid_image (softwareEnv prevPowerOf2Below (fun _ => 1)) 8
    loadedTexture ⟨0, 4, 4, 4⟩ true (Or.inl rfl)⟩

/-- Under a helper that satisfies `Shrinks`, `Texture::upload` returns true and records
the image's size for every valid image, mipmap flag, driver and resampler outcome; `fuel`
only has to cover the at most `w + h` iterations of the software loop. -/
theorem upload_returns_of_shrinks (env : GLEnv) (fuel : Nat) (t : Texture)
    (img : ImageData) (mipmap : Bool)
    (hpix : img.pixels ≠ 0) (hch : 1 ≤ img.channels ∧ img.channels ≤ 4)
    (hw : img.w ≠ 0) (hh : img.h ≠ 0)
    (hp : Shrinks env.prevPowerOf2) (hfuel : img.w + img.h ≤ fuel) :
    ∃ r, Texture.upload env fuel t img mipmap = some r ∧ r.ret = true ∧
      r.tex.width = img.w ∧ r.tex.height = img.h := by
  have hst := mipLoop_returns env
    (formatLUT.getD (img.channels - 1) ⟨.GL_RGBA, .GL_RGBA, .GL_UNSIGNED_BYTE, 3⟩) hp
    fuel img.w img.h 0 (by omega) (by omega) (by omega)
  unfold Texture.upload
  rw [if_neg (by omega)]
  simp only []
  split_ifs <;> (try rw [hst]) <;> exact ⟨_, rfl, rfl, rfl, rfl⟩

/-- Claim C3. `Texture::unload` is idempotent: a second call changes nothing and issues no
GL call. With a non-zero handle, the first call stores the width and height in `ow` and
`oh`, zeroes `gltexid`, keeps `width` and `height` and deletes the handle; with handle 0
it changes nothing. -/
theorem C3_unload_idempotent (t : Texture) :
    (t.unload.1.unload = (t.unload.1, [])) ∧
    (t.gltexid ≠ 0 → t.unload.1.ow = t.width ∧ t.unload.1.oh = t.height ∧
      t.unload.1.gltexid = 0 ∧ t.unload.1.width = t.width ∧ t.unload.1.height = t.height ∧
      t.unload.2 = [.glDeleteTextures t.gltexid]) ∧
    (t.gltexid = 0 → t.unload = (t, [])) := by
  by_cases h : t.gltexid = 0
  · simp [Texture.unload, h]
  · simp [Texture.unload, h]

theorem uploadedLevels_append (a b : List GLCmd) :
    uploadedLevels (a ++ b) = uploadedLevels a ++ uploadedLevels b := by
  induction a with
  | nil => rfl
  | cons c cs ih => cases c <;> simp [uploadedLevels, ih]

theorem maxLevelsSet_append (a b : List GLCmd) :
    maxLevelsSet (a ++ b) = maxLevelsSet a ++ maxLevelsSet b := by
  induction a with
  | nil => rfl
  | cons c cs ih =>
    cases c with
    | glTexParameterLevel pname level => cases pname <;> simp [maxLevelsSet, ih]
    | _ => simp [maxLevelsSet, ih]

theorem mipLoop_chain (env : GLEnv) (f : GlTexFormat) (hp : Shrinks env.prevPowerOf2)
    (hres : ∀ k, env.resizeResult k ≠ 0)
    (fuel mw mh level : Nat) (hw : 1 ≤ mw) (hh : 1 ≤ mh) (hfuel : mw + mh ≤ fuel + 2) :
    (mipLoop env f fuel mw mh level).status = .returned ∧
    (mipLoop env f fuel mw mh level).ismip = 1 ∧
    List.Chain (MipStep env.prevPowerOf2) (level, mw, mh)
      (uploadedLevels (mipLoop env f fuel mw mh level).cmds) ∧
    ((level, mw, mh) :: uploadedLevels (mipLoop env f fuel mw mh level).cmds).getLast? =
      some ((mipLoop env f fuel mw mh level).level, 1, 1) ∧
    level ≤ (mipLoop env f fuel mw mh level).level ∧
    (mw > 1 ∨ mh > 1 → level < (mipLoop env f fuel mw mh level).level) ∧
    maxLevelsSet (mipLoop env f fuel mw mh level).cmds = [] := by
  induction fuel generalizing mw mh level with
  | zero =>
    have h1 : mw = 1 := by omega
    have h2 : mh = 1 := by omega
    subst h1 h2
    simp [mipLoop, uploadedLevels, maxLevelsSet]
  | succ n ih =>
    unfold mipLoop
    by_cases hc : mw > 1 ∨ mh > 1
    · rw [if_pos hc]
      obtain ⟨a1, a2, a3⟩ := hp mw hw
      obtain ⟨b1, b2, b3⟩ := hp mh hh
      simp only []
      rw [if_neg (by omega), if_neg (hres _)]
      have hlt : env.prevPowerOf2 mw < mw ∨ env.prevPowerOf2 mh < mh := by
        rcases hc with hc | hc
        · exact Or.inl (a3 hc)
        · exact Or.inr (b3 hc)
      obtain ⟨i1, i2, i3, i4, i5, _, i6⟩ :=
        ih (env.prevPowerOf2 mw) (env.prevPowerOf2 mh) (level + 1) a1 b1 (by omega)
      refine ⟨i1, i2, ?_, ?_, ?_, ?_, ?_⟩
      · simp only [uploadedLevels]
        exact List.Chain.cons ⟨rfl, rfl, rfl, a2, b2, hlt⟩ i3
      · simp only [uploadedLevels]
        rw [List.getLast?_cons_cons]
        exact i4
      · exact Nat.le_of_succ_le i5
      · intro _
        exact i5
      · simp only [maxLevelsSet]
        exact i6
    · rw [if_neg hc]
      have h1 : mw = 1 := by omega
      have h2 : mh = 1 := by omega
      subst h1 h2
      simp [uploadedLevels, maxLevelsSet]

/-- Under a helper that satisfies `Shrinks`, the software fallback without a resampling
failure returns: the levels attached are level 0 of size W by H followed by levels 1 to n,
each of the dimensions the helper gives for the level before, never larger and smaller on
at least one axis; the last level is 1 by 1 and `GL_TEXTURE_MAX_LEVEL` is set to `n`. -/
theorem software_mip_chain_of_shrinks (env : GLEnv) (fuel : Nat) (t : Texture) (img : ImageData)
    (hpix : img.pixels ≠ 0) (hch : 1 ≤ img.channels ∧ img.channels ≤ 4)
    (hw : 1 ≤ img.w) (hh : 1 ≤ img.h) (hnot1 : ¬ (img.w = 1 ∧ img.h = 1))
    (hsoft : env.hasGenerateMipmapEXT = false ∧
      (env.g_has_GL_GENERATE_MIPMAP = false ∨ env.generateMipmapAnswer = 0))
    (hres : ∀ k, env.resizeResult k ≠ 0)
    (hp : Shrinks env.prevPowerOf2) (hfuel : img.w + img.h ≤ fuel) :
    ∃ r n, Texture.upload env fuel t img true = some r ∧ r.ret = true ∧
      List.Chain' (MipStep env.prevPowerOf2) (uploadedLevels r.cmds) ∧
      (uploadedLevels r.cmds).head? = some (0, img.w, img.h) ∧
      (uploadedLevels r.cmds).getLast? = some (n, 1, 1) ∧ 1 ≤ n ∧
      maxLevelsSet r.cmds = [n] := by
  obtain ⟨i1, i2, i3, i4, _, i5, i6⟩ := mipLoop_chain env
    (formatLUT.getD (img.channels - 1) ⟨.GL_RGBA, .GL_RGBA, .GL_UNSIGNED_BYTE, 3⟩) hp hres
    fuel img.w img.h 0 hw hh (by omega)
  have hc : img.w > 1 ∨ img.h > 1 := by omega
  obtain ⟨hext, hauto⟩ := hsoft
  have hism : (if (true && !env.hasGenerateMipmapEXT && env.g_has_GL_GENERATE_MIPMAP) = true
      then env.generateMipmapAnswer else 0) = 0 := by
    rcases hauto with h | h
    · simp [h]
    · simp [h]
  unfold Texture.upload
  rw [if_neg (by omega)]
  simp only []
  rw [hism]
  simp only [true_and, if_true, hext, Bool.false_eq_true, if_false, i1, i2]
  refine ⟨_, _, rfl, rfl, ?_, ?_, ?_, i5 hc, ?_⟩
  · simpa [uploadedLevels_append, uploadedLevels, apply_ite uploadedLevels, List.Chain']
      using i3
  · simp [uploadedLevels_append, uploadedLevels, apply_ite uploadedLevels]
  · simpa [uploadedLevels_append, uploadedLevels, apply_ite uploadedLevels] using i4
  · simpa [maxLevelsSet_append, maxLevelsSet, apply_ite maxLevelsSet] using i6

/-- Whenever `Texture::upload` returns on a valid image, it returns true and has recorded
the image's size, for every helper, driver and resampler outcome. -/
theorem upload_true_of_returns (env : GLEnv) (fuel : Nat) (t : Texture) (img : ImageData)
    (mipmap : Bool) (r : UploadResult)
    (hpix : img.pixels ≠ 0) (hch : 1 ≤ img.channels ∧ img.channels ≤ 4)
    (hw : img.w ≠ 0) (hh : img.h ≠ 0)
    (h : Texture.upload env fuel t img mipmap = some r) :
    r.ret = true ∧ r.tex.width = img.w ∧ r.tex.height = img.h := by
  unfold Texture.upload at h
  rw [if_neg (by omega)] at h
  simp only [] at h
  split_ifs at h <;>
    first
    | (cases h; exact ⟨rfl, rfl, rfl⟩)
    | (split at h <;> first | (cases h; exact ⟨rfl, rfl, rfl⟩) | cases h)

/-- Claim C9 evaluated where it fails. A 2 by 2 RGBA image whose first resample fails: only
level 0 is attached, the minification filter is `GL_LINEAR`, and `GL_TEXTURE_MAX_LEVEL` is
set to 1, not 0. A 4 by 4 image whose second resample fails: levels 0 and 1 are attached
and `GL_TEXTURE_MAX_LEVEL` is set to 2, not 1. -/
theorem C9_max_level_counts_failed_level :
    (∃ r, Texture.upload (softwareEnv prevPowerOf2Below (fun _ => 0)) 4 Texture.new
        ⟨1, 2, 2, 4⟩ true = some r ∧
      r.ret = true ∧ uploadedLevels r.cmds = [(0, 2, 2)] ∧ maxLevelsSet r.cmds = [1] ∧
      minFiltersSet r.cmds = [.GL_LINEAR]) ∧
    (∃ r, Texture.upload (softwareEnv prevPowerOf2Below (fun k => if k = 2 then 0 else 1)) 8
        Texture.new ⟨1, 4, 4, 4⟩ true = some r ∧
      r.ret = true ∧ uploadedLevels r.cmds = [(0, 4, 4), (1, 2, 2)] ∧ maxLevelsSet r.cmds = [2] ∧
      minFiltersSet r.cmds = [.GL_LINEAR]) := by
  refine ⟨⟨_, rfl, rfl, ?_, ?_, ?_⟩, ⟨_, rfl, rfl, ?_, ?_, ?_⟩⟩ <;> decide


/-! ## TileRender: culling, the loop invariant, transforms and batching -/

/-- Rounding is to nearest, ties to even: above `2^24` only even integers are values. -/
theorem F32.add_rounds_to_even :
    (16777216 : F32) + 1 = 16777216 ∧ (16777216 : F32) + 3 = 16777220 := by decide

/-- For `float` operands, `a < b` entails `a <= b` (both are false on NaN). -/
theorem F32.le_of_lt (a b : F32) (h : a < b) : a ≤ b := by
  have h' : F32.blt a b = true := h
  show F32.ble a b = true
  unfold F32.blt at h'
  unfold F32.ble
  split at h'
  · rename_i hc
    rw [hc]
  · exact absurd h' (by decide)

theorem sampleTile_not_culled : tileCulled sampleEnv sampleTile = false := by decide

theorem farTile_beyond_radius :
    cullDistSqr sampleEnv farTile > tileCullRadiusSqr sampleEnv farTile := by decide

theorem sampleRun_inRun :
    ∀ t ∈ [sampleTile, sampleTile, sampleTile], InRun sampleEnv loadedTexture false none t := by
  intro t ht
  simp only [List.mem_cons, List.mem_singleton, List.not_mem_nil, or_false, or_self] at ht
  subst ht
  exact ⟨rfl, rfl, sampleTile_not_culled, rfl, rfl, rfl⟩

theorem renderTiles_append (env : RenderEnv) (rs : RenderState) (st : LoopState)
    (a b : List TileData) :
    renderTiles env rs st (a ++ b) =
      ((renderTiles env rs (renderTiles env rs st a).1 b).1,
        (renderTiles env rs st a).2 ++ (renderTiles env rs (renderTiles env rs st a).1 b).2) := by
  induction a generalizing st with
  | nil => simp [renderTiles]
  | cons t ts ih => simp [renderTiles, ih, List.append_assoc]

theorem tileStep_culled (env : RenderEnv) (rs : RenderState) (st : LoopState) (tile : TileData)
    (h : tileCulled env tile = true) : tileStep env rs st tile = (st, []) := by
  unfold tileStep
  by_cases hh : (tile.flags.hidden || tile.flags.editorHidden) = true
  · rw [if_pos hh]
  · rw [if_neg hh, if_pos h]

/-- Claim C6. For every tile whose squared planar distance from the cull centre, taken at
its parallax position, is greater than `(sw² + sh²)·invGlobalScaleSqr + cullRadiusSqr`,
both as lines 76-90 compute them in `float`, the loop iteration of `onRender` issues no
call at all and keeps its locals, from any loop state; hence the whole loop runs as if the
tile were not in the collection. -/
theorem C6_culled_tile_issues_nothing (env : RenderEnv) (rs : RenderState) (st : LoopState) (tile : TileData)
    (h : cullDistSqr env tile > tileCullRadiusSqr env tile) :
    tileStep env rs st tile = (st, []) ∧
    ∀ pre post, renderTiles env rs st (pre ++ tile :: post) = renderTiles env rs st (pre ++ post) := by
  have hc : tileCulled env tile = true := by
    unfold tileCulled
    exact decide_eq_true (F32.le_of_lt _ _ h)
  refine ⟨tileStep_culled env rs st tile hc, ?_⟩
  intro pre post
  rw [renderTiles_append, renderTiles_append]
  simp [renderTiles, tileStep_culled env rs _ tile hc]

/-- Claim C6 at the sample tile moved to x = 100, where the code computes 10004 > 108. -/
theorem C6_culled_tile_issues_nothing_witness :
    cullDistSqr sampleEnv farTile > tileCullRadiusSqr sampleEnv farTile ∧
    (tileStep sampleEnv sampleRs LoopState.init farTile = (LoopState.init, []) ∧
      ∀ pre post, renderTiles sampleEnv sampleRs LoopState.init (pre ++ farTile :: post) =
        renderTiles sampleEnv sampleRs LoopState.init (pre ++ post)) :=
  ⟨farTile_beyond_radius,
    C6_culled_tile_issues_nothing sampleEnv sampleRs LoopState.init farTile farTile_beyond_radius⟩

theorem loopInv_init (env : RenderEnv) : LoopInv env LoopState.init := by
  intro e h
  simp [LoopState.init] at h

theorem bindTileTexture_prevEff (st : LoopState) (tile : TileData) :
    (bindTileTexture st tile).1.prevEff = st.prevEff ∧
    (bindTileTexture st tile).1.grid = st.grid := by
  unfold bindTileTexture
  split
  · split <;> exact ⟨rfl, rfl⟩
  · exact ⟨rfl, rfl⟩

theorem applyTileEffect_grid (env : RenderEnv) (rs : RenderState) (st : LoopState)
    (tile : TileData) (hinv : LoopInv env st) :
    (applyTileEffect env rs st tile).1.grid = effGrid env tile.eff ∧
    LoopInv env (applyTileEffect env rs st tile).1 := by
  unfold applyTileEffect
  by_cases h : some tile.eff ≠ st.prevEff
  · rw [if_pos h]
    cases he : tile.eff with
    | none =>
      refine ⟨rfl, ?_⟩
      intro e hp
      simp only [Option.some.injEq] at hp
      subst hp
      rfl
    | some e0 =>
      refine ⟨rfl, ?_⟩
      intro e hp
      simp only [Option.some.injEq] at hp
      subst hp
      rfl
  · rw [if_neg h]
    have h' : st.prevEff = some tile.eff := by
      by_contra hne
      exact h (fun heq => hne heq.symm)
    exact ⟨hinv _ h', hinv⟩

theorem drawTile_prevEff (rs : RenderState) (st : LoopState) (alpha : F32) (tile : TileData) :
    (drawTile rs st alpha tile).1.prevEff = st.prevEff ∧
    (drawTile rs st alpha tile).1.grid = st.grid := by
  unfold drawTile
  split
  · simp only []
    split_ifs <;> exact ⟨rfl, rfl⟩
  · simp only []
    split_ifs <;> exact ⟨rfl, rfl⟩

theorem loopInv_of_eq (env : RenderEnv) (st st' : LoopState) (hinv : LoopInv env st)
    (h : st'.prevEff = st.prevEff ∧ st'.grid = st.grid) : LoopInv env st' := by
  intro e he
  rw [h.2]
  exact hinv e (h.1 ▸ he)

theorem drawTileExtras_inv (env : RenderEnv) (rs : RenderState) (st : LoopState)
    (tile : TileData) (hinv : LoopInv env st) : LoopInv env (drawTileExtras env rs st tile).1 := by
  unfold drawTileExtras
  split
  · intro e he
    simp at he
  · exact hinv

theorem tileStep_inv (env : RenderEnv) (rs : RenderState) (st : LoopState) (tile : TileData)
    (hinv : LoopInv env st) : LoopInv env (tileStep env rs st tile).1 := by
  unfold tileStep
  split
  · exact hinv
  · split
    · exact hinv
    · simp only []
      apply drawTileExtras_inv
      apply loopInv_of_eq env _ _ _ (drawTile_prevEff _ _ _ _)
      apply (applyTileEffect_grid env rs _ tile _).2
      exact loopInv_of_eq env _ _ hinv (bindTileTexture_prevEff st tile)

theorem renderTiles_inv (env : RenderEnv) (rs : RenderState) (st : LoopState)
    (tiles : List TileData) (hinv : LoopInv env st) :
    LoopInv env (renderTiles env rs st tiles).1 := by
  induction tiles generalizing st with
  | nil => exact hinv
  | cons t ts ih =>
    simp only [renderTiles]
    exact ih _ (tileStep_inv env rs st t hinv)

theorem tileStep_grid (env : RenderEnv) (rs : RenderState) (st : LoopState) (tile : TileData)
    (hinv : LoopInv env st) :
    (applyTileEffect env rs (bindTileTexture st tile).1 tile).1.grid = effGrid env tile.eff :=
  (applyTileEffect_grid env rs _ tile
    (loopInv_of_eq env _ _ hinv (bindTileTexture_prevEff st tile))).1

theorem transformCmds_append (a b : List GLCmd) :
    transformCmds (a ++ b) = transformCmds a ++ transformCmds b := by
  simp [transformCmds]

theorem transformCmds_bind (st : LoopState) (tile : TileData) :
    transformCmds (bindTileTexture st tile).2 = [] := by
  unfold bindTileTexture
  split
  · split_ifs <;> simp [transformCmds, isTransform]
  · simp [transformCmds, isTransform]

theorem transformCmds_effect (env : RenderEnv) (rs : RenderState) (st : LoopState)
    (tile : TileData) : transformCmds (applyTileEffect env rs st tile).2.2 = [] := by
  unfold applyTileEffect
  split_ifs
  · split <;> simp [transformCmds, isTransform]
  · simp [transformCmds]

theorem transformCmds_draw (rs : RenderState) (st : LoopState) (alpha : F32) (tile : TileData) :
    transformCmds (drawTile rs st alpha tile).2 = [] := by
  unfold drawTile
  split
  · simp only []
    split_ifs <;> simp [transformCmds, isTransform]
  · simp only []
    split_ifs <;> simp [transformCmds, isTransform]

theorem transformCmds_extras (env : RenderEnv) (rs : RenderState) (st : LoopState)
    (tile : TileData) : transformCmds (drawTileExtras env rs st tile).2 = [] := by
  unfold drawTileExtras
  cases env.renderBorders <;> cases env.renderCollisionShape <;> cases st.grid <;>
    simp [transformCmds, isTransform]

theorem transformCmds_tileStep (env : RenderEnv) (rs : RenderState) (st : LoopState)
    (tile : TileData) (hvis : (tile.flags.hidden || tile.flags.editorHidden) = false)
    (hcull : tileCulled env tile = false) :
    transformCmds (tileStep env rs st tile).2 =
      transformCmds (tileTransform (applyTileEffect env rs (bindTileTexture st tile).1 tile).1.grid
        tile (tilePos env tile) (tileSw tile) (tileSh tile)) := by
  unfold tileStep
  rw [if_neg (by simp [hvis]), if_neg (by simp [hcull])]
  simp only [transformCmds_append, transformCmds_bind, transformCmds_effect, transformCmds_draw,
    transformCmds_extras, List.nil_append, List.append_nil]
  simp [transformCmds, isTransform]

/-- Claim C7, amended. For every tile that is rendered (not hidden, not culled) and whose
effect is absent or carries no deforming grid, at any place in the collection: with both
flip flags set the transform is translate, rotate by `rotation + 180` about z, scale; with
neither flag set it is translate, rotate by `rotation` about z, scale. Neither holds a
rotation about x or y. -/
theorem C7_double_flip_is_half_turn_without_grid (env : RenderEnv) (rs : RenderState) (pre : List TileData) (t : TileData)
    (hvis : t.flags.hidden = false ∧ t.flags.editorHidden = false)
    (hcull : tileCulled env t = false) (hgrid : effGrid env t.eff = none) :
    transformCmds (tileStep env rs (renderTiles env rs LoopState.init pre).1
        (withFlips t true true)).2 =
      [.glTranslatef (tilePos env t).x (tilePos env t).y (tilePos env t).z,
       .glRotatef (t.rotation + 180) 0 0 1, .glScalef (tileSw t) (tileSh t) 1] ∧
    transformCmds (tileStep env rs (renderTiles env rs LoopState.init pre).1
        (withFlips t false false)).2 =
      [.glTranslatef (tilePos env t).x (tilePos env t).y (tilePos env t).z,
       .glRotatef t.rotation 0 0 1, .glScalef (tileSw t) (tileSh t) 1] := by
  have hinv := renderTiles_inv env rs LoopState.init pre (loopInv_init env)
  have hv : ∀ a b, ((withFlips t a b).flags.hidden || (withFlips t a b).flags.editorHidden) = false := by
    intro a b
    show (t.flags.hidden || t.flags.editorHidden) = false
    simp [hvis.1, hvis.2]
  have hc : ∀ a b, tileCulled env (withFlips t a b) = false := fun _ _ => hcull
  have hg : ∀ a b, (applyTileEffect env rs (bindTileTexture (renderTiles env rs LoopState.init pre).1
      (withFlips t a b)).1 (withFlips t a b)).1.grid = none := by
    intro a b
    rw [tileStep_grid env rs _ _ hinv]
    exact hgrid
  constructor
  · rw [transformCmds_tileStep env rs _ _ (hv _ _) (hc _ _), hg]
    simp [tileTransform, withFlips, transformCmds, isTransform, tilePos, tileSw, tileSh]
  · rw [transformCmds_tileStep env rs _ _ (hv _ _) (hc _ _), hg]
    simp [tileTransform, withFlips, transformCmds, isTransform, tilePos, tileSw, tileSh]

/-- Claim C7, amended, at the sample tile rendered after a tile with a deforming grid. -/
theorem C7_double_flip_is_half_turn_without_grid_witness :
    (sampleTile.flags.hidden = false ∧ sampleTile.flags.editorHidden = false) ∧
    tileCulled sampleEnv sampleTile = false ∧ effGrid sampleEnv sampleTile.eff = none ∧
    (transformCmds (tileStep sampleEnv sampleRs
        (renderTiles sampleEnv sampleRs LoopState.init [gridTile]).1
        (withFlips sampleTile true true)).2 =
      [.glTranslatef (tilePos sampleEnv sampleTile).x (tilePos sampleEnv sampleTile).y
         (tilePos sampleEnv sampleTile).z,
       .glRotatef (sampleTile.rotation + 180) 0 0 1,
       .glScalef (tileSw sampleTile) (tileSh sampleTile) 1] ∧
    transformCmds (tileStep sampleEnv sampleRs
        (renderTiles sampleEnv sampleRs LoopState.init [gridTile]).1
        (withFlips sampleTile false false)).2 =
      [.glTranslatef (tilePos sampleEnv sampleTile).x (tilePos sampleEnv sampleTile).y
         (tilePos sampleEnv sampleTile).z,
       .glRotatef sampleTile.rotation 0 0 1,
       .glScalef (tileSw sampleTile) (tileSh sampleTile) 1]) :=
  ⟨⟨rfl, rfl⟩, sampleTile_not_culled, rfl,
    C7_double_flip_is_half_turn_without_grid sampleEnv sampleRs [gridTile] sampleTile
      ⟨rfl, rfl⟩ sampleTile_not_culled rfl⟩

/-- Claim C7 refuted at a tile whose effect carries a deforming grid: with both flip flags
set the rotation about z stays at 30 and a rotation by 180 about the y axis is added. -/
theorem C7_double_flip_under_grid_flips_about_y :
    effGrid sampleEnv gridTile.eff = some 5 ∧
    transformCmds (tileStep sampleEnv sampleRs LoopState.init (withFlips gridTile true true)).2 =
      [.glTranslatef 1 2 0, .glRotatef 30 0 0 1, .glRotatef 180 0 1 0, .glScalef 2 2 1] ∧
    transformCmds (tileStep sampleEnv sampleRs LoopState.init
        (withFlips gridTile false false)).2 =
      [.glTranslatef 1 2 0, .glRotatef 30 0 0 1, .glScalef 2 2 1] := by
  refine ⟨rfl, ?_, ?_⟩
  · decide
  · decide

theorem tileStep_withFV (env : RenderEnv) (rs : RenderState) (st : LoopState) (t : TileData)
    (b : Bool) (g : Nat) (hinv : LoopInv env st) (hgrid : effGrid env t.eff = some g) :
    tileStep env rs st (withFV t b) = tileStep env rs st t := by
  have h1 : (applyTileEffect env rs (bindTileTexture st t).1 t).1.grid = some g := by
    rw [tileStep_grid env rs st t hinv]; exact hgrid
  have h2 : (applyTileEffect env rs (bindTileTexture st (withFV t b)).1 (withFV t b)).1.grid
      = some g := h1
  unfold tileStep
  simp only [h1, h2]
  rfl

/-- Claim C8. For every tile whose effect carries a deforming grid, at any place in any
collection, the loop iteration of `onRender` issues the same calls with the vertical-flip
flag set as with it cleared, and the whole call of `onRender` has the same result. -/
theorem C8_vertical_flip_ignored_under_grid (env : RenderEnv) (rs : RenderState) (pre post : List TileData) (t : TileData)
    (g : Nat) (hgrid : effGrid env t.eff = some g) :
    (tileStep env rs (renderTiles env rs LoopState.init pre).1 (withFV t true)).2 =
      (tileStep env rs (renderTiles env rs LoopState.init pre).1 (withFV t false)).2 ∧
    TileRender.onRender env rs (pre ++ withFV t true :: post) =
      TileRender.onRender env rs (pre ++ withFV t false :: post) := by
  have hinv := renderTiles_inv env rs LoopState.init pre (loopInv_init env)
  have hs : tileStep env rs (renderTiles env rs LoopState.init pre).1 (withFV t true) =
      tileStep env rs (renderTiles env rs LoopState.init pre).1 (withFV t false) := by
    rw [tileStep_withFV env rs _ t true g hinv hgrid, tileStep_withFV env rs _ t false g hinv hgrid]
  refine ⟨by rw [hs], ?_⟩
  have he : ∀ x : TileData, (pre ++ x :: post).isEmpty = false := by
    intro x; cases pre <;> rfl
  unfold TileRender.onRender
  simp only [he, Bool.false_eq_true, if_false, renderTiles_append, renderTiles, hs]

/-- Claim C8 at the sample tile with effect 1 (grid 5), between two plain tiles. -/
theorem C8_vertical_flip_ignored_under_grid_witness :
    effGrid sampleEnv gridTile.eff = some 5 ∧
    ((tileStep sampleEnv sampleRs (renderTiles sampleEnv sampleRs LoopState.init [sampleTile]).1
        (withFV gridTile true)).2 =
      (tileStep sampleEnv sampleRs (renderTiles sampleEnv sampleRs LoopState.init [sampleTile]).1
        (withFV gridTile false)).2 ∧
    TileRender.onRender sampleEnv sampleRs ([sampleTile] ++ withFV gridTile true :: [sampleTile]) =
      TileRender.onRender sampleEnv sampleRs ([sampleTile] ++ withFV gridTile false :: [sampleTile])) :=
  ⟨rfl, C8_vertical_flip_ignored_under_grid sampleEnv sampleRs [sampleTile] [sampleTile]
    gridTile 5 rfl⟩

theorem stateChanges_append (a b : List GLCmd) :
    stateChanges (a ++ b) =
      ((stateChanges a).1 + (stateChanges b).1, (stateChanges a).2.1 + (stateChanges b).2.1,
        (stateChanges a).2.2 + (stateChanges b).2.2) := by
  simp [stateChanges, List.countP_append]

theorem stateChanges_transform (grid : Option Nat) (tile : TileData) (pos : Vector) (sw sh : F32) :
    stateChanges (tileTransform grid tile pos sw sh) = (0, 0, 0) := by
  unfold tileTransform
  simp only []
  split_ifs <;>
    simp [stateChanges, List.countP_cons, isTextureBind, isSetBlend, isColorUpdate]

theorem stateChanges_draw (rs : RenderState) (st : LoopState) (alpha : F32) (tile : TileData) :
    stateChanges (drawTile rs st alpha tile).2 = (0, 0, 0) ∧
    (drawTile rs st alpha tile).1.lastTexId = st.lastTexId ∧
    (drawTile rs st alpha tile).1.lastTexRepeat = st.lastTexRepeat ∧
    (drawTile rs st alpha tile).1.prevEff = st.prevEff := by
  unfold drawTile
  split
  · simp only []
    split_ifs <;>
      simp [stateChanges, List.countP_cons, isTextureBind, isSetBlend, isColorUpdate]
  · simp only []
    split_ifs <;>
      simp [stateChanges, List.countP_cons, isTextureBind, isSetBlend, isColorUpdate]

theorem drawTileExtras_off (env : RenderEnv) (rs : RenderState) (st : LoopState)
    (tile : TileData) (hb : env.renderBorders = false) (hc : env.renderCollisionShape = false) :
    drawTileExtras env rs st tile = (st, []) := by
  unfold drawTileExtras
  simp [hb, hc]

theorem bindTileTexture_same (st : LoopState) (tile : TileData) (tex : Texture)
    (htex : tile.et.tex = some tex) (hid : st.lastTexId = tex.gltexid)
    (hrep : st.lastTexRepeat = tile.flags.rep) : bindTileTexture st tile = (st, []) := by
  unfold bindTileTexture
  rw [htex]
  simp [hid, hrep]

theorem bindTileTexture_fresh (st : LoopState) (tile : TileData) (tex : Texture)
    (htex : tile.et.tex = some tex)
    (hne : tex.gltexid ≠ st.lastTexId ∨ tile.flags.rep ≠ st.lastTexRepeat) :
    bindTileTexture st tile =
      ({ st with lastTexId := tex.gltexid, lastTexRepeat := tile.flags.rep },
        [.texApply tex.gltexid tile.flags.rep]) := by
  unfold bindTileTexture
  rw [htex]
  simp only []
  rw [if_pos hne]

theorem applyTileEffect_same (env : RenderEnv) (rs : RenderState) (st : LoopState)
    (tile : TileData) (h : st.prevEff = some tile.eff) :
    applyTileEffect env rs st tile = (st, rs.alpha, []) := by
  unfold applyTileEffect
  rw [if_neg (by simp [h])]

theorem applyTileEffect_fresh (env : RenderEnv) (rs : RenderState) (st : LoopState)
    (tile : TileData) (h : st.prevEff = none) :
    stateChanges (applyTileEffect env rs st tile).2.2 = (0, 1, 1) ∧
    (applyTileEffect env rs st tile).1.prevEff = some tile.eff ∧
    (applyTileEffect env rs st tile).1.lastTexId = st.lastTexId ∧
    (applyTileEffect env rs st tile).1.lastTexRepeat = st.lastTexRepeat := by
  unfold applyTileEffect
  rw [if_pos (by simp [h])]
  cases tile.eff <;>
    simp [stateChanges, List.countP_cons, isTextureBind, isSetBlend, isColorUpdate]

theorem tileStep_in_run (env : RenderEnv) (rs : RenderState) (st : LoopState) (t : TileData)
    (tex : Texture) (r : Bool) (e : Option Nat)
    (hb : env.renderBorders = false) (hc : env.renderCollisionShape = false)
    (ht : InRun env tex r e t)
    (h1 : st.lastTexId = tex.gltexid) (h2 : st.lastTexRepeat = r) (h3 : st.prevEff = some e) :
    stateChanges (tileStep env rs st t).2 = (0, 0, 0) ∧
    (tileStep env rs st t).1.lastTexId = tex.gltexid ∧
    (tileStep env rs st t).1.lastTexRepeat = r ∧
    (tileStep env rs st t).1.prevEff = some e := by
  obtain ⟨v1, v2, v3, v4, v5, v6⟩ := ht
  unfold tileStep
  rw [if_neg (by simp [v1, v2]), if_neg (by simp [v3])]
  simp only [bindTileTexture_same st t tex v4 h1 (h2.trans v5.symm),
    applyTileEffect_same env rs st t (h3.trans (by rw [v6])),
    drawTileExtras_off env rs _ t hb hc]
  obtain ⟨d1, d2, d3, d4⟩ := stateChanges_draw rs st rs.alpha t
  refine ⟨?_, d2.trans h1, d3.trans h2, d4.trans h3⟩
  simp only [stateChanges_append, stateChanges_transform, d1]
  simp [stateChanges, List.countP_cons, isTextureBind, isSetBlend, isColorUpdate]

theorem renderTiles_in_run (env : RenderEnv) (rs : RenderState) (tex : Texture) (r : Bool)
    (e : Option Nat) (hb : env.renderBorders = false) (hc : env.renderCollisionShape = false)
    (tiles : List TileData) (hall : ∀ t ∈ tiles, InRun env tex r e t) (st : LoopState)
    (h1 : st.lastTexId = tex.gltexid) (h2 : st.lastTexRepeat = r) (h3 : st.prevEff = some e) :
    stateChanges (renderTiles env rs st tiles).2 = (0, 0, 0) := by
  induction tiles generalizing st with
  | nil => simp [renderTiles, stateChanges]
  | cons t ts ih =>
    obtain ⟨s1, s2, s3, s4⟩ :=
      tileStep_in_run env rs st t tex r e hb hc (hall t (List.mem_cons_self _ _)) h1 h2 h3
    have := ih (fun x hx => hall x (List.mem_cons_of_mem _ hx)) _ s2 s3 s4
    simp only [renderTiles, stateChanges_append, s1, this]

theorem tileStep_first (env : RenderEnv) (rs : RenderState) (t : TileData)
    (tex : Texture) (r : Bool) (e : Option Nat)
    (hb : env.renderBorders = false) (hc : env.renderCollisionShape = false)
    (ht : InRun env tex r e t) (hbound : tex.gltexid ≠ 0 ∨ r = true) :
    stateChanges (tileStep env rs LoopState.init t).2 = (1, 1, 1) ∧
    (tileStep env rs LoopState.init t).1.lastTexId = tex.gltexid ∧
    (tileStep env rs LoopState.init t).1.lastTexRepeat = r ∧
    (tileStep env rs LoopState.init t).1.prevEff = some e := by
  obtain ⟨v1, v2, v3, v4, v5, v6⟩ := ht
  have hne : tex.gltexid ≠ LoopState.init.lastTexId ∨ t.flags.rep ≠ LoopState.init.lastTexRepeat := by
    rcases hbound with h | h
    · exact Or.inl h
    · right; rw [v5, h]; simp [LoopState.init]
  unfold tileStep
  rw [if_neg (by simp [v1, v2]), if_neg (by simp [v3])]
  simp only [bindTileTexture_fresh LoopState.init t tex v4 hne,
    drawTileExtras_off env rs _ t hb hc]
  obtain ⟨a1, a2, a3, a4⟩ := applyTileEffect_fresh env rs
    { LoopState.init with lastTexId := tex.gltexid, lastTexRepeat := t.flags.rep } t rfl
  obtain ⟨d1, d2, d3, d4⟩ := stateChanges_draw rs
    (applyTileEffect env rs
      { LoopState.init with lastTexId := tex.gltexid, lastTexRepeat := t.flags.rep } t).1
    (applyTileEffect env rs
      { LoopState.init with lastTexId := tex.gltexid, lastTexRepeat := t.flags.rep } t).2.1 t
  refine ⟨?_, d2.trans a3, (d3.trans a4).trans v5, (d4.trans a2).trans (by rw [v6])⟩
  simp only [stateChanges_append, stateChanges_transform, d1, a1]
  simp [stateChanges, List.countP_cons, isTextureBind, isSetBlend, isColorUpdate]

/-- Claim C5, amended. With the debug overlay disabled, for every non-empty collection of
tiles, none hidden or culled, that all have the same present texture, the same repeat flag
and the same effect pointer, where the texture's handle is non-zero or the repeat flag is
set, `onRender` issues exactly one texture bind, one blend update and one colour update. -/
theorem C5_one_state_change_per_run (env : RenderEnv) (rs : RenderState)
    (tiles : List TileData) (tex : Texture) (r : Bool) (e : Option Nat)
    (hne : tiles ≠ [])
    (hb : env.renderBorders = false) (hc : env.renderCollisionShape = false)
    (hall : ∀ t ∈ tiles, InRun env tex r e t) (hbound : tex.gltexid ≠ 0 ∨ r = true) :
    (TileRender.onRender env rs tiles).cmds.countP isTextureBind = 1 ∧
    (TileRender.onRender env rs tiles).cmds.countP isSetBlend = 1 ∧
    (TileRender.onRender env rs tiles).cmds.countP isColorUpdate = 1 := by
  suffices hs : stateChanges (TileRender.onRender env rs tiles).cmds = (1, 1, 1) by
    simp only [stateChanges, Prod.mk.injEq] at hs
    exact hs
  cases tiles with
  | nil => exact absurd rfl hne
  | cons t ts =>
    obtain ⟨s1, s2, s3, s4⟩ :=
      tileStep_first env rs t tex r e hb hc (hall t (List.mem_cons_self _ _)) hbound
    have h := renderTiles_in_run env rs tex r e hb hc ts
      (fun x hx => hall x (List.mem_cons_of_mem _ hx)) _ s2 s3 s4
    unfold TileRender.onRender
    simp only [List.isEmpty_cons, Bool.false_eq_true, if_false, renderTiles, stateChanges_append,
      s1, h]
    simp [stateChanges, List.countP_cons, isTextureBind, isSetBlend, isColorUpdate]


/-- Claim C5, amended, at a run of three sample tiles. -/
theorem C5_one_state_change_per_run_witness :
    [sampleTile, sampleTile, sampleTile] ≠ [] ∧
    (∀ t ∈ [sampleTile, sampleTile, sampleTile], InRun sampleEnv loadedTexture false none t) ∧
    ((TileRender.onRender sampleEnv sampleRs [sampleTile, sampleTile, sampleTile]).cmds.countP
        isTextureBind = 1 ∧
      (TileRender.onRender sampleEnv sampleRs [sampleTile, sampleTile, sampleTile]).cmds.countP
        isSetBlend = 1 ∧
      (TileRender.onRender sampleEnv sampleRs [sampleTile, sampleTile, sampleTile]).cmds.countP
        isColorUpdate = 1) :=
  ⟨List.cons_ne_nil _ _, sampleRun_inRun,
    C5_one_state_change_per_run sampleEnv sampleRs [sampleTile, sampleTile, sampleTile]
      loadedTexture false none (List.cons_ne_nil _ _) rfl rfl sampleRun_inRun
      (Or.inl (by decide))⟩

/-- Claim C5 refuted. Two visible tiles without a texture, same effect, overlay off: two
texture binds. One visible tile whose texture holds handle 0, repeat flag clear: none. -/
theorem C5_untextured_run_binds_every_tile :
    tileCulled sampleEnv untexturedTile = false ∧
    (TileRender.onRender sampleEnv sampleRs [untexturedTile, untexturedTile]).cmds.countP isTextureBind
      = 2 ∧
    tileCulled sampleEnv unloadedTile = false ∧
    (TileRender.onRender sampleEnv sampleRs [unloadedTile]).cmds.countP isTextureBind = 0 := by
  refine ⟨sampleTile_not_culled, ?_, sampleTile_not_culled, ?_⟩ <;> decide

/-- Claim C10 evaluated where it fails. Two visible tiles share effect 1, which carries
grid 5 and alpha multiplier 1/2; the ambient alpha is 1 and the overlay is off. The first
`grid->render` receives alpha 1/2, the second receives the ambient alpha 1. Both receive
the tile kind's base rectangle, the repeat flag being clear. -/
theorem C10_shared_effect_grid_gets_ambient_alpha :
    gridRenders (TileRender.onRender sampleEnv sampleRs [gridTile, gridTile]).cmds =
      [(5, 1/2, ⟨0, 0, 0⟩, ⟨1, 1, 0⟩), (5, 1, ⟨0, 0, 0⟩, ⟨1, 1, 0⟩)] := by
  decide

end Aquaria
